import Mathlib

/-!
Verification of the scrape-categorize-upsert news pipeline in
`ai-model/nepali_agricultural_news_service.py`.

The Python service is shallowly embedded: the persistent `news` table becomes
an explicit list of records, timestamps become integers (seconds, with
`86400` seconds per day), classifier confidence scores become rationals, and
each caught exception becomes an explicit error value.  External collaborators
(the HTTP fetcher, the zero-shot classifier backend, the PostgreSQL
connection) are modelled as inputs: their per-call outcomes are parameters of
the embedded functions.  The run's single shared psycopg2 connection is
modelled as an explicit transaction state: the first failing SQL statement
puts the transaction into the aborted state, every later statement of the
run then raises (and is caught where the source catches), and the single
end-of-run `conn.commit()` of an aborted transaction rolls the whole run's
changes back.
-/

/-! ## Data model -/

/-- An article candidate as produced by the scrapers: the dict literal built
in `scrape_narc_news` / `scrape_generic_news` with keys `title`, `content`,
`image_url`, `source`, `publish_date`, `url`. -/
structure Article where
  title : String
  content : String
  image_url : Option String
  source : String
  publish_date : Int
  url : String
deriving DecidableEq, Repr

/-- A row of the `news` table created by `setup_database`:
`id, title, content, image_url, source, publish_date, category, url,
is_active, created_at, updated_at`. -/
structure NewsRecord where
  id : Nat
  title : String
  content : String
  image_url : Option String
  source : String
  publish_date : Int
  category : String
  url : String
  is_active : Bool
  created_at : Int
  updated_at : Int
deriving DecidableEq, Repr

/-- The persistent store: the rows of the `news` table, plus a counter
modelling the generation of fresh opaque identifiers (`uuid.uuid4()` in the
source produces a fresh unique key per insert). -/
structure NewsDB where
  rows : List NewsRecord
  next_id : Nat
deriving DecidableEq, Repr

/-- Number of rows whose `url` column equals `u`. -/
def urlCount (db : NewsDB) (u : String) : Nat :=
  db.rows.countP (fun r => r.url == u)

/-- The `UNIQUE` constraint on `news.url`: at most one row per canonical URL. -/
def urlUnique (db : NewsDB) : Prop :=
  ∀ u : String, urlCount db u ≤ 1

/-! ## Repository operations -/

/-- The `UPDATE news SET ...` statement of `upsert_article`: overwrite the
mutable columns from the candidate, force `is_active = TRUE`, refresh
`updated_at = NOW()`.  The `url`, `id` and `created_at` columns are not
touched by the UPDATE. -/
def update_fields (a : Article) (category : String) (now : Int)
    (r : NewsRecord) : NewsRecord :=
  { r with
    title := a.title
    content := a.content
    image_url := a.image_url
    source := a.source
    publish_date := a.publish_date
    category := category
    is_active := true
    updated_at := now }

/-- `upsert_article(conn, article, category)` (success path of the `try`
block): `SELECT id FROM news WHERE url = %s`; if a row exists, run the UPDATE
on every row with that url and return `False`; otherwise INSERT a new row
with a fresh id, `is_active = TRUE` and return `True`. -/
def upsert_article (db : NewsDB) (a : Article) (category : String)
    (now : Int) : NewsDB × Bool :=
  match db.rows.find? (fun r => r.url == a.url) with
  | some _ =>
      ({ db with
          rows := db.rows.map (fun r =>
            if r.url == a.url then update_fields a category now r else r) },
        false)
  | none =>
      ({ rows := db.rows ++
          [{ id := db.next_id
             title := a.title
             content := a.content
             image_url := a.image_url
             source := a.source
             publish_date := a.publish_date
             category := category
             url := a.url
             is_active := true
             created_at := now
             updated_at := now }]
         next_id := db.next_id + 1 },
        true)

/-- The state of the run's single psycopg2 connection: the uncommitted
working contents of the `news` table, and whether the shared transaction has
entered the aborted state (a prior statement failed and no rollback was
issued, so every further statement raises `InFailedSqlTransaction`). -/
structure TxState where
  db : NewsDB
  aborted : Bool
deriving DecidableEq, Repr

/-- The whole `upsert_article` including its `except` clause, on the shared
transaction.  In an aborted transaction the initial SELECT raises, the
`except` catches it and the function returns `False` with nothing changed.
If this call's own statement fails (`fails`), the error is caught the same
way, the statement has no effect, and the transaction becomes aborted.
Otherwise the success path `upsert_article` runs. -/
def upsert_article_tx (fails : Bool) (tx : TxState) (a : Article)
    (category : String) (now : Int) : TxState × Bool :=
  if tx.aborted then (tx, false)
  else if fails then ({ tx with aborted := true }, false)
  else
    let step := upsert_article tx.db a category now
    ({ tx with db := step.1 }, step.2)

/-- One day in seconds; `timedelta(days=7)` is `7 * 86400`. -/
def secondsPerDay : Int := 86400

/-- The row transformation of `deactivate_old_articles`'s UPDATE:
`SET is_active = FALSE, updated_at = NOW() WHERE publish_date < cutoff AND
is_active = TRUE` with `cutoff = now - 7 days`, applied to one row. -/
def stale_update (now : Int) (r : NewsRecord) : NewsRecord :=
  if r.publish_date < now - 7 * secondsPerDay ∧ r.is_active = true then
    { r with is_active := false, updated_at := now }
  else r

/-- `deactivate_old_articles(conn)`: deactivate every active row whose
`publish_date` is older than `now` minus the 7-day retention window. -/
def deactivate_old_articles (db : NewsDB) (now : Int) : NewsDB :=
  { db with rows := db.rows.map (stale_update now) }

/-- `DATE(publish_date)`: the calendar day of a timestamp, as a day number
(floor division by the length of a day). -/
def dateOf (t : Int) : Int := t.fdiv secondsPerDay

/-- Insert `x` into a list sorted descending by `key` (helper for the
`ORDER BY ... DESC` clauses). -/
def insertDescBy {α : Type} (key : α → Int) (x : α) : List α → List α
  | [] => [x]
  | y :: l => if key y ≤ key x then x :: y :: l else y :: insertDescBy key x l

/-- Sort a list descending by `key` (insertion sort), modelling
`ORDER BY ... DESC`. -/
def sortDescBy {α : Type} (key : α → Int) : List α → List α
  | [] => []
  | x :: l => insertDescBy key x (sortDescBy key l)

/-- The `GROUP BY category ... ORDER BY count DESC` query over active rows,
shared by `get_summary_stats` and the `/api/categories` endpoint. -/
def category_counts (db : NewsDB) : List (String × Nat) :=
  let active := db.rows.filter (fun r => r.is_active)
  let cats := (active.map (fun r => r.category)).eraseDups
  sortDescBy (fun p => (p.2 : Int))
    (cats.map (fun c => (c, active.countP (fun r => r.category == c))))

/-- The record returned by `get_summary_stats`. -/
structure SummaryStats where
  total_active : Nat
  today_count : Nat
  category_stats : List (String × Nat)
deriving DecidableEq, Repr

/-- `get_summary_stats(conn)` (success path): `total_active` counts rows with
`is_active = TRUE`; `today_count` counts rows with
`DATE(publish_date) = today` — the SQL has no `is_active` filter on this
query; `category_stats` groups active rows by category. -/
def get_summary_stats (db : NewsDB) (now : Int) : SummaryStats :=
  { total_active := db.rows.countP (fun r => r.is_active)
    today_count := db.rows.countP (fun r => dateOf r.publish_date == dateOf now)
    category_stats := category_counts db }

/-! ## Categorizer -/

/-- The `category_descriptions` dict of `NewsCategorizer.categorize_article`,
in insertion order: category key paired with the natural-language description
submitted to the zero-shot classifier. -/
def category_descriptions : List (String × String) :=
  [("crop_pests",
    "Information about crop diseases, pests, and plant health issues"),
   ("market_prices",
    "Agricultural market prices, commodity prices, and market trends"),
   ("weather_advisory",
    "Weather forecasts, climate information, and weather-related agricultural advice"),
   ("policy_update",
    "Government policies, regulations, and agricultural policy changes"),
   ("technology_innovation",
    "New agricultural technologies, innovations, and farming methods"),
   ("fertilizer_seeds",
    "Information about fertilizers, seeds, and agricultural inputs"),
   ("irrigation_water",
    "Irrigation systems, water management, and water-related agricultural topics"),
   ("livestock_dairy",
    "Livestock farming, dairy production, and animal husbandry"),
   ("organic_farming",
    "Organic farming practices, sustainable agriculture, and eco-friendly farming")]

/-- `NewsCategorizer.categorize_article(title, content)`.  The classifier
backend is external: `classifierOk` models whether `self.classifier` was
initialized, and `best_label` / `best_score` model `result['labels'][0]` /
`result['scores'][0]` of the classification call on the truncated text.  The
source walks `category_descriptions.items()` looking for the description
equal to the top label, then assigns the category only when
`best_score > 0.3`, otherwise returns `"uncategorized"`. -/
def categorize_article (classifierOk : Bool) (best_label : String)
    (best_score : ℚ) : String :=
  if classifierOk = false then "uncategorized"
  else
    match category_descriptions.find? (fun p => p.2 == best_label) with
    | some p => if best_score > 3 / 10 then p.1 else "uncategorized"
    | none => "uncategorized"

/-! ## Extractor title resolution -/

/-- A matched article container, reduced to the text of the first element
each title-relevant selector would find inside it (`none` when the container
has no such element). -/
structure Container where
  h1 : Option String
  h2 : Option String
  h3 : Option String
  a : Option String
  titleCls : Option String
  headline : Option String
deriving DecidableEq, Repr

/-- Title resolution of the specialized NARC profile (`scrape_narc_news`):
`item.find('h2') or item.find('h3') or item.find('a')`, defaulting to
`"No title"`. -/
def narc_title (c : Container) : String :=
  match c.h2 with
  | some t => t
  | none =>
    match c.h3 with
    | some t => t
    | none =>
      match c.a with
      | some t => t
      | none => "No title"

/-- Title resolution of the generic profile (`scrape_generic_news`): loop
over `['h1', 'h2', 'h3', '.title', '.headline']`, first present element
wins, defaulting to `"No title"`. -/
def generic_title (c : Container) : String :=
  match c.h1 with
  | some t => t
  | none =>
    match c.h2 with
    | some t => t
    | none =>
      match c.h3 with
      | some t => t
      | none =>
        match c.titleCls with
        | some t => t
        | none =>
          match c.headline with
          | some t => t
          | none => "No title"

/-! ## Read API -/

/-- The error body `jsonify({'success': False, 'error': str(e)})` returned by
both endpoints. -/
structure ApiError where
  success : Bool
  error : String
deriving DecidableEq, Repr

/-- A Flask response: either a 200 JSON payload, or a JSON error body paired
with an explicit HTTP status. -/
inductive ApiResponse (α : Type) where
  | ok (body : α)
  | err (status : Nat) (body : ApiError)
deriving DecidableEq, Repr

/-- `GET /api/news`: on success, active rows optionally filtered by category,
ordered by `publish_date DESC`, limited, returned with their count; on an
internal failure (modelled by `dbError = some e` where `e` is `str(e)` of the
exception) the `except` branch returns `{'success': False, 'error': str(e)}`
with HTTP status 500. -/
def get_news (dbError : Option String) (db : NewsDB)
    (category : Option String) (limit : Nat) :
    ApiResponse (Nat × List NewsRecord) :=
  match dbError with
  | some e => .err 500 ⟨false, e⟩
  | none =>
    let active := db.rows.filter (fun r => r.is_active)
    let filtered :=
      match category with
      | some c => active.filter (fun r => r.category == c)
      | none => active
    let ordered := (sortDescBy (fun r => r.publish_date) filtered).take limit
    .ok (ordered.length, ordered)

/-- `GET /api/categories`: on success, active-row counts per category ordered
by count descending; on an internal failure, the same 500 error body as
`get_news`. -/
def get_categories (dbError : Option String) (db : NewsDB) :
    ApiResponse (List (String × Nat)) :=
  match dbError with
  | some e => .err 500 ⟨false, e⟩
  | none => .ok (category_counts db)

/-! ## Date normalizer -/

/-- A parsed calendar date (the `datetime` produced by the date parse,
time-of-day components omitted: the parses at issue carry none). -/
structure Date where
  year : Nat
  month : Nat
  day : Nat
deriving DecidableEq, Repr

/-- Match exactly `n` ASCII digits at the head of the input; return the
digits and the remaining input. -/
def takeDigits : Nat → List Char → Option (List Char × List Char)
  | 0, l => some ([], l)
  | _ + 1, [] => none
  | n + 1, c :: l =>
    if c.isDigit then
      match takeDigits n l with
      | some (ds, rest) => some (c :: ds, rest)
      | none => none
    else none

/-- Match one literal character at the head of the input. -/
def expectChar (c : Char) : List Char → Option (List Char)
  | [] => none
  | d :: l => if d = c then some l else none

/-- Split off a maximal run of whitespace characters. -/
def takeWhitespace : List Char → List Char × List Char
  | [] => ([], [])
  | c :: l =>
    if c.isWhitespace then
      let (ws, r) := takeWhitespace l
      (c :: ws, r)
    else ([], c :: l)

/-- Match `\s+` at the head of the input: at least one whitespace character,
greedily. -/
def takeSpaces1 (l : List Char) : Option (List Char × List Char) :=
  match l with
  | [] => none
  | c :: _ => if c.isWhitespace then some (takeWhitespace l) else none

/-- Match a literal word at the head of the input, returning the rest. -/
def matchWord : List Char → List Char → Option (List Char)
  | [], l => some l
  | _ :: _, [] => none
  | p :: ps, c :: l => if c = p then matchWord ps l else none

/-- The twelve month names of the Nepali-months alternation in
`extract_date_from_text`, in the order the regex tries them. -/
def nepaliMonths : List String :=
  ["Baisakh", "Jestha", "Asar", "Shrawan", "Bhadra", "Ashoj",
   "Kartik", "Mangsir", "Poush", "Magh", "Falgun", "Chaitra"]

/-- Match the month-name alternation: the first name in the list that is a
prefix of the input wins. -/
def matchOneOf : List String → List Char → Option (List Char × List Char)
  | [], _ => none
  | m :: ms, l =>
    match matchWord m.data l with
    | some rest => some (m.data, rest)
    | none => matchOneOf ms l

/-- Match the regex `\d{4}-\d{2}-\d{2}` at the head of the input and return
the matched substring. -/
def matchIsoAt (l : List Char) : Option (List Char) :=
  (takeDigits 4 l).bind fun (y, r1) =>
  (expectChar '-' r1).bind fun r2 =>
  (takeDigits 2 r2).bind fun (m, r3) =>
  (expectChar '-' r3).bind fun r4 =>
  (takeDigits 2 r4).map fun (d, _) => y ++ '-' :: m ++ '-' :: d

/-- Match the regex `\d{2}/\d{2}/\d{4}` at the head of the input. -/
def matchMdyAt (l : List Char) : Option (List Char) :=
  (takeDigits 2 l).bind fun (a, r1) =>
  (expectChar '/' r1).bind fun r2 =>
  (takeDigits 2 r2).bind fun (b, r3) =>
  (expectChar '/' r3).bind fun r4 =>
  (takeDigits 4 r4).map fun (y, _) => a ++ '/' :: b ++ '/' :: y

/-- Match the regex `\d{2}-\d{2}-\d{4}` at the head of the input. -/
def matchDmyAt (l : List Char) : Option (List Char) :=
  (takeDigits 2 l).bind fun (a, r1) =>
  (expectChar '-' r1).bind fun r2 =>
  (takeDigits 2 r2).bind fun (b, r3) =>
  (expectChar '-' r3).bind fun r4 =>
  (takeDigits 4 r4).map fun (y, _) => a ++ '-' :: b ++ '-' :: y

/-- Match `\d{k}\s+(month)\s+\d{4}` at the head of the input. -/
def matchNepaliDigits (k : Nat) (l : List Char) : Option (List Char) :=
  (takeDigits k l).bind fun (ds, r1) =>
  (takeSpaces1 r1).bind fun (ws1, r2) =>
  (matchOneOf nepaliMonths r2).bind fun (mon, r3) =>
  (takeSpaces1 r3).bind fun (ws2, r4) =>
  (takeDigits 4 r4).map fun (y, _) => ds ++ ws1 ++ mon ++ ws2 ++ y

/-- Match the Nepali-months regex `\d{1,2}\s+(?:...)\s+\d{4}` at the head of
the input: the greedy `\d{1,2}` tries two digits, then backtracks to one. -/
def matchNepaliAt (l : List Char) : Option (List Char) :=
  (matchNepaliDigits 2 l).orElse fun _ => matchNepaliDigits 1 l

/-- `re.search`: try the pattern at each start position from the left; the
first position where it matches wins. -/
def searchPattern (m : List Char → Option (List Char)) :
    List Char → Option (List Char)
  | [] => m []
  | c :: l =>
    match m (c :: l) with
    | some s => some s
    | none => searchPattern m l

/-- The `date_patterns` list of `extract_date_from_text`, in source order:
ISO `YYYY-MM-DD`, `MM/DD/YYYY`, `DD-MM-YYYY`, Nepali month names. -/
def date_patterns : List (List Char → Option (List Char)) :=
  [matchIsoAt, matchMdyAt, matchDmyAt, matchNepaliAt]

/-- Numeric value of a digit string. -/
def digitsToNat (ds : List Char) : Nat :=
  ds.foldl (fun n c => n * 10 + (c.toNat - 48)) 0

/-- Gregorian leap year. -/
def isLeap (y : Nat) : Bool :=
  y % 4 = 0 && (y % 100 ≠ 0 || y % 400 = 0)

/-- Days in a Gregorian month. -/
def daysInMonth (y m : Nat) : Nat :=
  if m = 2 then (if isLeap y then 29 else 28)
  else if m = 4 ∨ m = 6 ∨ m = 9 ∨ m = 11 then 30
  else 31

/-- Whether year/month/day form a valid calendar date. -/
def validDate (y m d : Nat) : Bool :=
  1 ≤ m && m ≤ 12 && 1 ≤ d && d ≤ daysInMonth y m

/-- Parse a full `dddd-dd-dd` string into its three numeric components. -/
def parseIsoFull (s : List Char) : Option (Nat × Nat × Nat) :=
  (takeDigits 4 s).bind fun (y, r1) =>
  (expectChar '-' r1).bind fun r2 =>
  (takeDigits 2 r2).bind fun (m, r3) =>
  (expectChar '-' r3).bind fun r4 =>
  (takeDigits 2 r4).bind fun (d, rest) =>
  if rest.isEmpty then some (digitsToNat y, digitsToNat m, digitsToNat d)
  else none

/-- Parse a full `dd/dd/dddd` string into its three numeric components. -/
def parseSlashFull (s : List Char) : Option (Nat × Nat × Nat) :=
  (takeDigits 2 s).bind fun (a, r1) =>
  (expectChar '/' r1).bind fun r2 =>
  (takeDigits 2 r2).bind fun (b, r3) =>
  (expectChar '/' r3).bind fun r4 =>
  (takeDigits 4 r4).bind fun (y, rest) =>
  if rest.isEmpty then some (digitsToNat a, digitsToNat b, digitsToNat y)
  else none

/-- Parse a full `dd-dd-dddd` string into its three numeric components. -/
def parseDashFull (s : List Char) : Option (Nat × Nat × Nat) :=
  (takeDigits 2 s).bind fun (a, r1) =>
  (expectChar '-' r1).bind fun r2 =>
  (takeDigits 2 r2).bind fun (b, r3) =>
  (expectChar '-' r3).bind fun r4 =>
  (takeDigits 4 r4).bind fun (y, rest) =>
  if rest.isEmpty then some (digitsToNat a, digitsToNat b, digitsToNat y)
  else none

/-- Resolve a two-field day/month pair the way the external `dateutil`
parser does by default: the first component is the month when that makes a
valid date, otherwise the components are swapped; an invalid date either way
raises (returns `none`). -/
def monthDayResolve (a b y : Nat) : Option Date :=
  if validDate y a b then some ⟨y, a, b⟩
  else if validDate y b a then some ⟨y, b, a⟩
  else none

/-- Modelled external collaborator: `dateutil.parser.parse` restricted to
the substring shapes the date patterns can produce.  A `dddd-dd-dd` match
parses as an ISO date when valid; `dd/dd/dddd` and `dd-dd-dddd` matches
resolve month-first with a day/month swap fallback; a Nepali month-name
match is not a recognizable date string for `dateutil`, so it raises
(returns `none`). -/
def date_parser_parse (s : List Char) : Option Date :=
  match parseIsoFull s with
  | some (y, m, d) => if validDate y m d then some ⟨y, m, d⟩ else none
  | none =>
    match parseSlashFull s with
    | some (a, b, y) => monthDayResolve a b y
    | none =>
      match parseDashFull s with
      | some (a, b, y) => monthDayResolve a b y
      | none => none

/-- The pattern loop of `extract_date_from_text`: for each pattern in order,
`re.search`; on a match, try the date parse of the matched substring and
return its result on success; on a parse failure (or no match), `continue`
with the next pattern. -/
def tryPatterns : List (List Char → Option (List Char)) → List Char →
    Option Date
  | [], _ => none
  | p :: ps, l =>
    match searchPattern p l with
    | some s =>
      match date_parser_parse s with
      | some d => some d
      | none => tryPatterns ps l
    | none => tryPatterns ps l

/-- `extract_date_from_text(text)`: `None` for empty text, otherwise the
pattern loop over `date_patterns`. -/
def extract_date_from_text (text : String) : Option Date :=
  if text.isEmpty then none
  else tryPatterns date_patterns text.data

/-! ## Pipeline orchestrator -/

/-- The `stats` dict of `run_news_pipeline`. -/
structure RunStats where
  new_articles : Nat
  updated_articles : Nat
  errors : Nat
deriving DecidableEq, Repr

/-- One candidate of the per-article loop, together with the external
outcomes its processing meets: `classifierOut` is the top label/score the
zero-shot classifier returns for this article's text, `raises` models a
dynamic exception escaping into the loop's `except` clause, and
`persist_fails` models this candidate's own SQL statement raising inside
`upsert_article` (in an already-aborted transaction the statement raises
regardless of this flag). -/
structure PipelineItem where
  article : Article
  classifierOut : String × ℚ
  raises : Bool
  persist_fails : Bool
deriving DecidableEq, Repr

/-- The environment of one pipeline run: which setup steps fail, the scraped
candidates with their per-item outcomes, and whether the deactivation
UPDATE, the summary-statistics queries, or the end-of-run commit fail on
their own.  `classifierAvailable` models whether `NewsCategorizer.__init__`
managed to load the model. -/
structure PipelineEnv where
  setupFails : Bool
  connectFails : Bool
  classifierAvailable : Bool
  items : List PipelineItem
  deactivateFails : Bool
  statsFails : Bool
  commitFails : Bool
deriving DecidableEq, Repr

/-- What a run leaves behind: the run statistics and the state of the store. -/
structure RunResult where
  stats : RunStats
  db : NewsDB
deriving DecidableEq, Repr

/-- The `for article in articles` loop of `run_news_pipeline`: categorize,
upsert (with its internal catch, on the shared transaction), count
new/updated; an exception escaping into the loop body's `except` clause
increments the error counter and the loop continues with the remaining
candidates. -/
def process_articles (avail : Bool) :
    List PipelineItem → TxState → Int → RunStats → TxState × RunStats
  | [], tx, _, stats => (tx, stats)
  | item :: rest, tx, now, stats =>
    if item.raises then
      process_articles avail rest tx now
        { stats with errors := stats.errors + 1 }
    else
      let category :=
        categorize_article avail item.classifierOut.1 item.classifierOut.2
      let step := upsert_article_tx item.persist_fails tx item.article
        category now
      let stats' :=
        if step.2 then
          { stats with new_articles := stats.new_articles + 1 }
        else
          { stats with updated_articles := stats.updated_articles + 1 }
      process_articles avail rest step.1 now stats'

/-- `deactivate_old_articles` including its `except` clause, on the shared
transaction: in an aborted transaction the UPDATE raises, is caught, and
nothing happens; if the UPDATE itself fails the error is likewise caught but
the transaction becomes aborted; otherwise the success-path UPDATE runs. -/
def deactivate_old_articles_tx (fails : Bool) (tx : TxState) (now : Int) :
    TxState :=
  if tx.aborted then tx
  else if fails then { tx with aborted := true }
  else { tx with db := deactivate_old_articles tx.db now }

/-- `conn.commit()`: a commit that itself raises (connection lost) escapes
to the outer `except` with nothing persisted; committing an aborted
transaction succeeds but PostgreSQL turns it into a rollback, so the store
reverts to its pre-run contents; otherwise the working state is persisted. -/
def commit_tx (fails : Bool) (db₀ : NewsDB) (tx : TxState) :
    Except Unit NewsDB :=
  if fails then .error ()
  else if tx.aborted then .ok db₀
  else .ok tx.db

/-- The body of `run_news_pipeline`'s outer `try` block: database setup,
scrape (internally caught, yielding `env.items`), the early `return` when no
articles were scraped, the database connection opening a fresh transaction,
the per-article loop, stale deactivation, the summary queries (their own
failure is caught by `get_summary_stats` but still aborts the shared
transaction), and the single end-of-run commit.  An uncaught failure is an
`Except.error` carrying the statistics accumulated so far; in every such
case nothing was committed, so the store keeps its pre-run contents. -/
def pipeline_body (env : PipelineEnv) (db₀ : NewsDB) (now : Int) :
    Except RunStats RunResult :=
  if env.setupFails then .error ⟨0, 0, 0⟩
  else if env.items.isEmpty then .ok ⟨⟨0, 0, 0⟩, db₀⟩
  else if env.connectFails then .error ⟨0, 0, 0⟩
  else
    let step := process_articles env.classifierAvailable env.items
      ⟨db₀, false⟩ now ⟨0, 0, 0⟩
    let tx₁ := deactivate_old_articles_tx env.deactivateFails step.1 now
    let tx₂ := if env.statsFails then { tx₁ with aborted := true } else tx₁
    match commit_tx env.commitFails db₀ tx₂ with
    | .ok db => .ok ⟨step.2, db⟩
    | .error _ => .error step.2

/-- `run_news_pipeline()`: the outer `except` catches any error from the
body, logs it, increments `stats['errors']`, and the function returns
normally; on such a failure the store is unchanged. -/
def run_news_pipeline (env : PipelineEnv) (db₀ : NewsDB) (now : Int) :
    RunResult :=
  match pipeline_body env db₀ now with
  | .ok r => r
  | .error s => ⟨{ s with errors := s.errors + 1 }, db₀⟩

/-! ## Upsert lemmas -/

theorem update_fields_url (a : Article) (cat : String) (now : Int)
    (r : NewsRecord) : (update_fields a cat now r).url = r.url := rfl

/-- Mapping a url-preserving transformation over the rows preserves the
per-url row count. -/
theorem countP_url_map (l : List NewsRecord) (g : NewsRecord → NewsRecord)
    (hg : ∀ r, (g r).url = r.url) (u : String) :
    (l.map g).countP (fun r => r.url == u) =
      l.countP (fun r => r.url == u) := by
  rw [List.countP_map]
  exact List.countP_congr fun r _ => by simp [Function.comp, hg]

/-- After an upsert, some row carries the candidate's URL. -/
theorem upsert_mem_url (db : NewsDB) (a : Article) (cat : String)
    (now : Int) :
    ∃ r ∈ (upsert_article db a cat now).1.rows, (r.url == a.url) = true := by
  rcases h : db.rows.find? (fun r => r.url == a.url) with _ | r₀
  · refine ⟨⟨db.next_id, a.title, a.content, a.image_url, a.source,
      a.publish_date, cat, a.url, true, now, now⟩, ?_, ?_⟩
    · simp [upsert_article, h]
    · simp
  · have hmem := List.mem_of_find?_eq_some h
    have hp := List.find?_some (p := fun (r : NewsRecord) => r.url == a.url) h
    refine ⟨update_fields a cat now r₀, ?_, ?_⟩
    · simp only [upsert_article, h]
      exact List.mem_map.mpr ⟨r₀, hmem, by simp [hp]⟩
    · simpa [update_fields_url] using hp

/-- When some row already carries the candidate's URL, the upsert reports
`isNew = false`. -/
theorem upsert_snd_false (db : NewsDB) (a : Article) (cat : String)
    (now : Int) (hmem : ∃ r ∈ db.rows, (r.url == a.url) = true) :
    (upsert_article db a cat now).2 = false := by
  rcases h : db.rows.find? (fun r => r.url == a.url) with _ | r₀
  · obtain ⟨r, hr, hp⟩ := hmem
    exact absurd hp (by simpa using List.find?_eq_none.mp h r hr)
  · simp [upsert_article, h]

/-- On a URL-unique store, an upsert leaves exactly one row with the
candidate's URL. -/
theorem upsert_count_one (db : NewsDB) (a : Article) (cat : String)
    (now : Int) (hinv : urlUnique db) :
    urlCount (upsert_article db a cat now).1 a.url = 1 := by
  rcases h : db.rows.find? (fun r => r.url == a.url) with _ | r₀
  · have hzero : db.rows.countP (fun r => r.url == a.url) = 0 :=
      List.countP_eq_zero.mpr (List.find?_eq_none.mp h)
    simp [urlCount, upsert_article, h, hzero]
  · have hle : db.rows.countP (fun r => r.url == a.url) ≤ 1 := hinv a.url
    have hpos : 0 < db.rows.countP (fun r => r.url == a.url) :=
      List.countP_pos_iff.mpr
        ⟨r₀, List.mem_of_find?_eq_some h,
          List.find?_some (p := fun (r : NewsRecord) => r.url == a.url) h⟩
    have hone : db.rows.countP (fun r => r.url == a.url) = 1 :=
      Nat.le_antisymm hle hpos
    have hpre : ∀ r : NewsRecord,
        ((if r.url == a.url then update_fields a cat now r else r).url)
          = r.url := by
      intro r
      by_cases hc : (r.url == a.url) = true <;> simp [hc, update_fields_url]
    simp only [urlCount, upsert_article, h]
    rw [countP_url_map _ _ hpre]
    exact hone

/-- An upsert preserves the URL-uniqueness invariant. -/
theorem upsert_unique (db : NewsDB) (a : Article) (cat : String) (now : Int)
    (hinv : urlUnique db) : urlUnique (upsert_article db a cat now).1 := by
  intro u
  rcases h : db.rows.find? (fun r => r.url == a.url) with _ | r₀
  · by_cases hu : a.url = u
    · subst hu
      have hzero : db.rows.countP (fun r => r.url == a.url) = 0 :=
        List.countP_eq_zero.mpr (List.find?_eq_none.mp h)
      simp [urlCount, upsert_article, h, hzero]
    · have := hinv u
      simp only [urlCount, upsert_article, h, List.countP_append]
      simpa [urlCount, hu] using this
  · have hpre : ∀ r : NewsRecord,
        ((if r.url == a.url then update_fields a cat now r else r).url)
          = r.url := by
      intro r
      by_cases hc : (r.url == a.url) = true <;> simp [hc, update_fields_url]
    simp only [urlCount, upsert_article, h]
    rw [countP_url_map _ _ hpre]
    exact hinv u

/-- After an upsert, some row carries the candidate's URL together with all
the candidate's field values, the assigned category, and `is_active = true`. -/
theorem upsert_fields (db : NewsDB) (a : Article) (cat : String)
    (now : Int) :
    ∃ r ∈ (upsert_article db a cat now).1.rows,
      r.url = a.url ∧ r.title = a.title ∧ r.content = a.content ∧
      r.image_url = a.image_url ∧ r.source = a.source ∧
      r.publish_date = a.publish_date ∧ r.category = cat ∧
      r.is_active = true := by
  rcases h : db.rows.find? (fun r => r.url == a.url) with _ | r₀
  · refine ⟨⟨db.next_id, a.title, a.content, a.image_url, a.source,
      a.publish_date, cat, a.url, true, now, now⟩, ?_, ?_⟩
    · simp [upsert_article, h]
    · simp
  · have hmem := List.mem_of_find?_eq_some h
    have hp := List.find?_some (p := fun (r : NewsRecord) => r.url == a.url) h
    refine ⟨update_fields a cat now r₀, ?_, ?_⟩
    · simp only [upsert_article, h]
      exact List.mem_map.mpr ⟨r₀, hmem, by simp [hp]⟩
    · refine ⟨by simpa using hp, ?_⟩
      simp [update_fields]

/-- C1: Upsert is idempotent on the canonical URL: on a URL-unique store,
after applying `upsert_article` twice with the same canonical URL (the second
candidate may differ in every other field), exactly one row carries that URL,
the second call returns `isNew = false`, and that row holds the second call's
field values with `is_active = true`. -/
theorem upsert_idempotent (db : NewsDB) (c₁ c₂ : Article)
    (cat₁ cat₂ : String) (t₁ t₂ : Int)
    (hurl : c₂.url = c₁.url) (hinv : urlUnique db) :
    (upsert_article (upsert_article db c₁ cat₁ t₁).1 c₂ cat₂ t₂).2 = false ∧
    urlCount (upsert_article (upsert_article db c₁ cat₁ t₁).1 c₂ cat₂ t₂).1
      c₁.url = 1 ∧
    ∃ r ∈ (upsert_article (upsert_article db c₁ cat₁ t₁).1 c₂ cat₂ t₂).1.rows,
      r.url = c₁.url ∧ r.title = c₂.title ∧ r.content = c₂.content ∧
      r.image_url = c₂.image_url ∧ r.source = c₂.source ∧
      r.publish_date = c₂.publish_date ∧ r.category = cat₂ ∧
      r.is_active = true := by
  have hinv₁ := upsert_unique db c₁ cat₁ t₁ hinv
  refine ⟨?_, ?_, ?_⟩
  · apply upsert_snd_false
    obtain ⟨r, hr, hp⟩ := upsert_mem_url db c₁ cat₁ t₁
    exact ⟨r, hr, by rw [hurl]; exact hp⟩
  · have hc := upsert_count_one (upsert_article db c₁ cat₁ t₁).1 c₂ cat₂ t₂
      hinv₁
    rwa [hurl] at hc
  · obtain ⟨r, hr, hu, hrest⟩ :=
      upsert_fields (upsert_article db c₁ cat₁ t₁).1 c₂ cat₂ t₂
    exact ⟨r, hr, hu.trans hurl, hrest⟩

/-- First candidate of the upsert-idempotence witness scenario. -/
def wArticle1 : Article :=
  ⟨"t1", "c1", none, "s1", 5, "http://example.com/a"⟩

/-- Second candidate: same canonical URL, every other field changed. -/
def wArticle2 : Article :=
  ⟨"t2", "c2", some "img", "s2", 6, "http://example.com/a"⟩

theorem upsert_idempotent_witness :
    wArticle2.url = wArticle1.url ∧
    (upsert_article (upsert_article ⟨[], 0⟩ wArticle1 "x" 10).1 wArticle2
      "y" 20).2 = false ∧
    urlCount (upsert_article (upsert_article ⟨[], 0⟩ wArticle1 "x" 10).1
      wArticle2 "y" 20).1 wArticle1.url = 1 :=
  ⟨rfl,
    (upsert_idempotent ⟨[], 0⟩ wArticle1 wArticle2 "x" "y" 10 20 rfl
      (fun u => by simp [urlCount])).1,
    (upsert_idempotent ⟨[], 0⟩ wArticle1 wArticle2 "x" "y" 10 20 rfl
      (fun u => by simp [urlCount])).2.1⟩

/-- Applying the stale-row transformation twice is the same as applying it
once. -/
theorem stale_update_idem (now : Int) (r : NewsRecord) :
    stale_update now (stale_update now r) = stale_update now r := by
  unfold stale_update
  by_cases h : r.publish_date < now - 7 * secondsPerDay ∧ r.is_active = true
  · simp [h]
  · simp [h]

/-- Pointwise facts about a list zipped with its image under a map. -/
theorem zip_map_forall {α : Type} (l : List α) (f : α → α)
    (P : α → α → Prop) (h : ∀ x, P x (f x)) :
    ∀ p ∈ l.zip (l.map f), P p.1 p.2 := by
  induction l with
  | nil => simp
  | cons x xs ih =>
    intro p hp
    simp only [List.map_cons, List.zip_cons_cons, List.mem_cons] at hp
    rcases hp with rfl | hp
    · exact h x
    · exact ih p hp

/-- C4: `deactivate_old_articles` with the 7-day retention window keeps the
row list's length, turns exactly the currently-active rows whose publish
timestamp is older than `now` minus 7 days inactive (leaving their other
columns except `updated_at` unchanged), leaves every other row entirely
unchanged, and is idempotent. -/
theorem deactivate_old_articles_spec (db : NewsDB) (now : Int) :
    (deactivate_old_articles db now).rows.length = db.rows.length ∧
    (∀ p ∈ db.rows.zip (deactivate_old_articles db now).rows,
      (p.1.publish_date < now - 7 * secondsPerDay ∧ p.1.is_active = true →
        p.2 = { p.1 with is_active := false, updated_at := now }) ∧
      (¬(p.1.publish_date < now - 7 * secondsPerDay ∧
          p.1.is_active = true) → p.2 = p.1)) ∧
    deactivate_old_articles (deactivate_old_articles db now) now =
      deactivate_old_articles db now := by
  refine ⟨by simp [deactivate_old_articles], ?_, ?_⟩
  · simp only [deactivate_old_articles]
    apply zip_map_forall db.rows (stale_update now)
      (fun x y =>
        (x.publish_date < now - 7 * secondsPerDay ∧ x.is_active = true →
          y = { x with is_active := false, updated_at := now }) ∧
        (¬(x.publish_date < now - 7 * secondsPerDay ∧ x.is_active = true) →
          y = x))
    intro r
    constructor
    · intro hc
      simp [stale_update, hc]
    · intro hc
      simp [stale_update, hc]
  · simp only [deactivate_old_articles, List.map_map, Function.comp]
    exact congrArg (fun l => NewsDB.mk l db.next_id)
      (List.map_congr_left fun r _ => stale_update_idem now r)

/-- A row of the deactivation witness published 8 days before `now = 9 days`,
still active. -/
def wStaleRec : NewsRecord :=
  ⟨0, "old", "", none, "s", 86400, "u1", "http://example.com/old", true, 0, 0⟩

/-- A row of the deactivation witness published 6 days before `now = 9 days`,
active. -/
def wFreshRec : NewsRecord :=
  ⟨1, "new", "", none, "s", 3 * 86400, "u2", "http://example.com/new", true,
    0, 0⟩

theorem deactivate_old_articles_spec_witness :
    ((deactivate_old_articles ⟨[wStaleRec, wFreshRec], 2⟩ (9 * 86400)).rows.length
      = 2) ∧
    deactivate_old_articles
        (deactivate_old_articles ⟨[wStaleRec, wFreshRec], 2⟩ (9 * 86400))
        (9 * 86400) =
      deactivate_old_articles ⟨[wStaleRec, wFreshRec], 2⟩ (9 * 86400) :=
  ⟨(deactivate_old_articles_spec ⟨[wStaleRec, wFreshRec], 2⟩ (9 * 86400)).1,
    (deactivate_old_articles_spec ⟨[wStaleRec, wFreshRec], 2⟩ (9 * 86400)).2.2⟩

/-! ## Categorizer theorems -/

/-- A category key found in the description table is never the fallback
label. -/
theorem find_cat_ne (cat desc : String)
    (hfind : category_descriptions.find? (fun p => p.2 == desc) =
      some (cat, desc)) : cat ≠ "uncategorized" := by
  have hmem := List.mem_of_find?_eq_some hfind
  simp only [category_descriptions, List.mem_cons, Prod.mk.injEq,
    List.not_mem_nil, or_false] at hmem
  rcases hmem with ⟨rfl, -⟩ | ⟨rfl, -⟩ | ⟨rfl, -⟩ | ⟨rfl, -⟩ | ⟨rfl, -⟩ |
    ⟨rfl, -⟩ | ⟨rfl, -⟩ | ⟨rfl, -⟩ | ⟨rfl, -⟩ <;> decide

/-- C3 counterexample: the crop-pests description is a known top label, a
top score of exactly 3/10 is not below the 0.3 threshold, yet
`categorize_article` returns `"uncategorized"` because the source requires
`best_score > 0.3` strictly. -/
theorem categorize_exact_threshold_cx :
    category_descriptions.find? (fun p => p.2 ==
        "Information about crop diseases, pests, and plant health issues") =
      some ("crop_pests",
        "Information about crop diseases, pests, and plant health issues") ∧
    ¬((3 / 10 : ℚ) < 3 / 10) ∧
    categorize_article true
      "Information about crop diseases, pests, and plant health issues"
      (3 / 10) = "uncategorized" := by
  refine ⟨rfl, by norm_num, ?_⟩
  simp only [categorize_article]
  norm_num
  split <;> rfl

/-- C3 (amended): when the top label maps to a known category, the
categorizer returns `"uncategorized"` exactly when the top score is at most
the 0.3 threshold, and returns the category exactly when the score strictly
exceeds 0.3 (so a score of 0.9 yields the category, while a score of exactly
0.3 yields `"uncategorized"`). -/
theorem categorize_threshold (cat desc : String) (score : ℚ)
    (hfind : category_descriptions.find? (fun p => p.2 == desc) =
      some (cat, desc)) :
    (categorize_article true desc score = "uncategorized" ↔
      score ≤ 3 / 10) ∧
    (3 / 10 < score → categorize_article true desc score = cat) := by
  have hne := find_cat_ne cat desc hfind
  have hval : categorize_article true desc score =
      if score > 3 / 10 then cat else "uncategorized" := by
    simp [categorize_article, hfind]
  constructor
  · rw [hval]
    by_cases h : score > 3 / 10
    · rw [if_pos h]
      exact iff_of_false hne (not_le.mpr h)
    · rw [if_neg h]
      simpa using not_lt.mp h
  · intro h
    rw [hval, if_pos h]

theorem categorize_threshold_witness :
    categorize_article true
      "Information about crop diseases, pests, and plant health issues"
      (9 / 10) = "crop_pests" ∧
    categorize_article true
      "Information about crop diseases, pests, and plant health issues"
      (1 / 4) = "uncategorized" :=
  ⟨(categorize_threshold "crop_pests"
      "Information about crop diseases, pests, and plant health issues"
      (9 / 10) rfl).2 (by norm_num),
    (categorize_threshold "crop_pests"
      "Information about crop diseases, pests, and plant health issues"
      (1 / 4) rfl).1.mpr (by norm_num)⟩

/-! ## Extractor theorems -/

/-- C6 counterexample: under the specialized NARC profile a container with
both an `h1` (text "A") and an `h2` (text "B") resolves its title to the
`h2` text, because `scrape_narc_news` tries `h2`, `h3`, `a` and never `h1`. -/
theorem narc_title_prefers_h2_cx :
    narc_title ⟨some "A", some "B", none, none, none, none⟩ = "B" ∧
    ("B" : String) ≠ "A" := ⟨rfl, by decide⟩

/-- C6 (amended): the generic profile's title cascade starts with `h1` then
`h2` (both present yields the `h1` text, only `h2` yields the `h2` text),
while the specialized NARC profile's cascade starts with `h2` then `h3` then
`a` — its `h2` text wins even when an `h1` is present. -/
theorem title_cascade (c : Container) (t : String) :
    (c.h1 = some t → generic_title c = t) ∧
    (c.h1 = none → c.h2 = some t → generic_title c = t) ∧
    (c.h2 = some t → narc_title c = t) ∧
    (c.h2 = none → c.h3 = some t → narc_title c = t) := by
  obtain ⟨h1, h2, h3, a, tc, hl⟩ := c
  refine ⟨?_, ?_, ?_, ?_⟩
  · intro h
    subst h
    rfl
  · intro hn hs
    subst hn
    subst hs
    rfl
  · intro hs
    subst hs
    rfl
  · intro hn hs
    subst hn
    subst hs
    rfl

theorem title_cascade_witness :
    generic_title ⟨some "H1", some "H2", none, none, none, none⟩ = "H1" ∧
    generic_title ⟨none, some "H2", none, none, none, none⟩ = "H2" ∧
    narc_title ⟨none, some "H2", none, none, none, none⟩ = "H2" :=
  ⟨(title_cascade ⟨some "H1", some "H2", none, none, none, none⟩ "H1").1 rfl,
    (title_cascade ⟨none, some "H2", none, none, none, none⟩ "H2").2.1 rfl rfl,
    (title_cascade ⟨none, some "H2", none, none, none, none⟩ "H2").2.2.1 rfl⟩

/-! ## Read API theorems -/

/-- C7 counterexample: on an internal failure whose exception text is
`"connection refused"`, both endpoints return a 500 error body whose `error`
field is exactly that internal text — the payload does contain the
exception's error text verbatim. -/
theorem api_error_leaks_verbatim_cx :
    get_news (some "connection refused") ⟨[], 0⟩ none 10 =
      .err 500 ⟨false, "connection refused"⟩ ∧
    get_categories (some "connection refused") ⟨[], 0⟩ =
      .err 500 ⟨false, "connection refused"⟩ := ⟨rfl, rfl⟩

/-- C7 (amended): on every internal failure both `GET /api/news` and
`GET /api/categories` return `success = false` with HTTP status 500, and the
`error` field of the payload is `str(e)` — the internal exception text
verbatim. -/
theorem api_error_payload (e : String) (db : NewsDB) (cat : Option String)
    (lim : Nat) :
    get_news (some e) db cat lim = .err 500 ⟨false, e⟩ ∧
    get_categories (some e) db = .err 500 ⟨false, e⟩ := ⟨rfl, rfl⟩

/-! ## Summary statistics theorems -/

/-- A row for the today-count counterexample: published on the current day
but inactive. -/
def c9Rec : NewsRecord :=
  ⟨0, "t", "", none, "s", 0, "uncategorized", "http://example.com/t", false,
    0, 0⟩

/-- C9 counterexample: a store holding a single inactive row published today
reports `today_count = 1`, while the number of rows published today with
`is_active = true` is 0 — the SQL behind `today_count` has no `is_active`
filter. -/
theorem today_count_counts_inactive_cx :
    (get_summary_stats ⟨[c9Rec], 1⟩ 0).today_count = 1 ∧
    c9Rec.is_active = false ∧ dateOf c9Rec.publish_date = dateOf 0 := by
  refine ⟨rfl, rfl, rfl⟩

/-- C9 (amended): `today_count` counts the rows whose publish date falls on
the current day regardless of the active flag; in particular it is invariant
under arbitrary rewrites of every row's `is_active` column. -/
theorem today_count_ignores_active (db : NewsDB) (now : Int)
    (f : NewsRecord → Bool) :
    (get_summary_stats db now).today_count =
      db.rows.countP (fun r => dateOf r.publish_date == dateOf now) ∧
    (get_summary_stats
        ⟨db.rows.map (fun r => { r with is_active := f r }), db.next_id⟩
        now).today_count = (get_summary_stats db now).today_count := by
  refine ⟨rfl, ?_⟩
  simp only [get_summary_stats]
  rw [List.countP_map]
  exact List.countP_congr fun r _ => Iff.rfl

/-! ## Pipeline theorems -/

/-- The abort state of the shared transaction after the per-article loop:
the transaction ends aborted exactly when it started aborted or some
candidate that did not raise in the loop body had its own persistence
statement fail. -/
theorem process_articles_aborted (avail : Bool) (items : List PipelineItem)
    (tx : TxState) (now : Int) (stats : RunStats) :
    (process_articles avail items tx now stats).1.aborted =
      (tx.aborted || items.any fun i => !i.raises && i.persist_fails) := by
  induction items generalizing tx stats with
  | nil => simp [process_articles]
  | cons item rest ih =>
    by_cases hr : item.raises = true
    · simp [process_articles, hr, ih]
    · simp only [Bool.not_eq_true] at hr
      by_cases ha : tx.aborted = true
      · simp [process_articles, hr, upsert_article_tx, ha, ih]
      · simp only [Bool.not_eq_true] at ha
        by_cases hf : item.persist_fails = true
        · simp [process_articles, hr, upsert_article_tx, ha, hf, ih]
        · simp [process_articles, hr, upsert_article_tx, ha, hf, ih]

/-- The store a run leaves behind, for every run that starts successfully
and scraped at least one candidate: if any SQL statement of the run failed
(a candidate's persistence statement, the deactivation UPDATE, the summary
queries, or the commit itself), the end-of-run commit rolls the whole
transaction back and the store keeps its pre-run contents; otherwise the
committed store is one stale-deactivation pass over the fully upserted
working state. -/
theorem run_news_pipeline_db (env : PipelineEnv) (db₀ : NewsDB) (now : Int)
    (h₁ : env.setupFails = false) (h₂ : env.connectFails = false)
    (hne : env.items.isEmpty = false) :
    (run_news_pipeline env db₀ now).db =
      (if env.commitFails || env.statsFails || env.deactivateFails ||
          (env.items.any fun i => !i.raises && i.persist_fails) then db₀
       else
         deactivate_old_articles
           (process_articles env.classifierAvailable env.items ⟨db₀, false⟩
             now ⟨0, 0, 0⟩).1.db now) := by
  have habA : (process_articles env.classifierAvailable env.items
      ⟨db₀, false⟩ now ⟨0, 0, 0⟩).1.aborted =
      (env.items.any fun i => !i.raises && i.persist_fails) := by
    rw [process_articles_aborted]
    simp
  by_cases hcf : env.commitFails = true
  · simp [run_news_pipeline, pipeline_body, h₁, h₂, hne, commit_tx, hcf]
  · simp only [Bool.not_eq_true] at hcf
    by_cases hsf : env.statsFails = true
    · simp [run_news_pipeline, pipeline_body, h₁, h₂, hne, commit_tx, hcf,
        hsf]
    · simp only [Bool.not_eq_true] at hsf
      by_cases hdf : env.deactivateFails = true
      · by_cases hab : (process_articles env.classifierAvailable env.items
            ⟨db₀, false⟩ now ⟨0, 0, 0⟩).1.aborted = true
        · simp [run_news_pipeline, pipeline_body, h₁, h₂, hne, commit_tx,
            deactivate_old_articles_tx, hcf, hsf, hdf, hab]
        · simp only [Bool.not_eq_true] at hab
          simp [run_news_pipeline, pipeline_body, h₁, h₂, hne, commit_tx,
            deactivate_old_articles_tx, hcf, hsf, hdf, hab]
      · simp only [Bool.not_eq_true] at hdf
        by_cases hab : (process_articles env.classifierAvailable env.items
            ⟨db₀, false⟩ now ⟨0, 0, 0⟩).1.aborted = true
        · have hA : (env.items.any fun i => !i.raises && i.persist_fails) =
              true := by rw [← habA]; exact hab
          simp [run_news_pipeline, pipeline_body, h₁, h₂, hne, commit_tx,
            deactivate_old_articles_tx, hcf, hsf, hdf, hab, hA]
        · simp only [Bool.not_eq_true] at hab
          have hA : (env.items.any fun i => !i.raises && i.persist_fails) =
              false := by rw [← habA]; exact hab
          simp [run_news_pipeline, pipeline_body, h₁, h₂, hne, commit_tx,
            deactivate_old_articles_tx, hcf, hsf, hdf, hab, hA]

/-- The candidate of the persistence-failure scenario. -/
def cxArticle : Article := ⟨"t", "c", none, "s", 0, "http://example.com/x"⟩

/-- A pipeline item whose persistence fails (the database raises inside
`upsert_article`) while nothing escapes into the loop's `except` clause. -/
def cxItem : PipelineItem := ⟨cxArticle, ("lbl", 0), false, true⟩

/-- A pipeline item whose processing fully succeeds. -/
def okItem : PipelineItem := ⟨cxArticle, ("lbl", 0), false, false⟩

/-- C2 counterexample: in a run over a single candidate whose persistence
fails, the statistics report the candidate as updated
(`updated_articles = 1`) and the error counter stays 0 — the internal catch
of `upsert_article` returns `False`, which the loop counts as an update, not
as an error. -/
theorem persist_failure_not_counted_error_cx :
    (run_news_pipeline ⟨false, false, true, [cxItem], false, false, false⟩
      ⟨[], 0⟩ 0).stats = ⟨0, 1, 0⟩ ∧ cxItem.persist_fails = true := ⟨rfl, rfl⟩

/-- C2 (amended): a candidate whose persistence fails does not abort the
loop — processing continues with the remaining candidates on an unchanged
working store — but the candidate is counted as updated (not as an error and
not as newly inserted), because `upsert_article` catches the database error
and returns `False`; the loop's error counter is reserved for exceptions
that escape into the loop body's `except` clause.  The failed statement
leaves the shared transaction aborted. -/
theorem persist_failure_counted_updated (avail : Bool) (item : PipelineItem)
    (rest : List PipelineItem) (tx : TxState) (now : Int) (stats : RunStats)
    (hraise : item.raises = false) (hfail : item.persist_fails = true) :
    process_articles avail (item :: rest) tx now stats =
      process_articles avail rest { tx with aborted := true } now
        { stats with updated_articles := stats.updated_articles + 1 } := by
  obtain ⟨db, ab⟩ := tx
  by_cases ha : ab = true
  · subst ha
    simp [process_articles, hraise, upsert_article_tx]
  · simp only [Bool.not_eq_true] at ha
    subst ha
    simp [process_articles, hraise, upsert_article_tx, hfail]

theorem persist_failure_counted_updated_witness :
    cxItem.raises = false ∧ cxItem.persist_fails = true ∧
    process_articles true [cxItem] ⟨⟨[], 0⟩, false⟩ 0 ⟨0, 0, 0⟩ =
      process_articles true [] ⟨⟨[], 0⟩, true⟩ 0 ⟨0, 1, 0⟩ :=
  ⟨rfl, rfl,
    persist_failure_counted_updated true cxItem [] ⟨⟨[], 0⟩, false⟩ 0
      ⟨0, 0, 0⟩ rfl rfl⟩

/-- A stale row of `stale_update` stays or becomes inactive. -/
theorem stale_update_stale_inactive (now : Int) (r : NewsRecord)
    (h : (stale_update now r).publish_date < now - 7 * secondsPerDay) :
    (stale_update now r).is_active = false := by
  by_cases hc : r.publish_date < now - 7 * secondsPerDay ∧ r.is_active = true
  · simp [stale_update, hc]
  · have he : stale_update now r = r := by simp [stale_update, hc]
    rw [he] at h ⊢
    cases ha : r.is_active
    · rfl
    · exact absurd ⟨h, ha⟩ hc

/-- C5 counterexample: a run whose scrape phase produced zero candidates
returns early (`if not articles: return`) before connecting to the store, so
stale deactivation is skipped: a still-active record 8 days old survives the
completed run untouched. -/
theorem empty_scrape_skips_deactivation_cx :
    run_news_pipeline ⟨false, false, true, [], false, false, false⟩
      ⟨[wStaleRec], 1⟩ (9 * 86400) = ⟨⟨0, 0, 0⟩, ⟨[wStaleRec], 1⟩⟩ ∧
    wStaleRec.is_active = true ∧
    wStaleRec.publish_date < 9 * 86400 - 7 * secondsPerDay := by
  refine ⟨rfl, rfl, by decide⟩

/-- C5 (amended): in every run that starts successfully (database setup and
connection succeed), scraped at least one candidate, and met no database
statement or commit failure, stale deactivation is executed exactly once,
after all the per-candidate upserts, and consequently no active record older
than 7 days remains after the run.  When the scrape produced zero candidates
the pipeline returns early and deactivation is skipped; and when any
statement of the run failed (a candidate's persistence statement aborting
the shared transaction, the deactivation UPDATE's own caught error, a
summary-query failure, or a failing commit), the run still completes but the
end-of-run commit rolls the transaction back: the store — stale active
records included — is exactly as it was before the run. -/
theorem run_pipeline_deactivates (env : PipelineEnv) (db₀ : NewsDB)
    (now : Int) (h₁ : env.setupFails = false) (h₂ : env.connectFails = false)
    (h₃ : env.items ≠ []) :
    ((env.items.any fun i => !i.raises && i.persist_fails) = false →
      env.deactivateFails = false → env.statsFails = false →
      env.commitFails = false →
      (run_news_pipeline env db₀ now).db =
        deactivate_old_articles
          (process_articles env.classifierAvailable env.items ⟨db₀, false⟩
            now ⟨0, 0, 0⟩).1.db now ∧
      ∀ r ∈ (run_news_pipeline env db₀ now).db.rows,
        r.publish_date < now - 7 * secondsPerDay → r.is_active = false) ∧
    (((env.items.any fun i => !i.raises && i.persist_fails) = true ∨
      env.deactivateFails = true ∨ env.statsFails = true ∨
      env.commitFails = true) →
      (run_news_pipeline env db₀ now).db = db₀) := by
  have hdb := run_news_pipeline_db env db₀ now h₁ h₂
    (List.isEmpty_eq_false.mpr h₃)
  constructor
  · intro hA hd hs hc
    have hok : (run_news_pipeline env db₀ now).db =
        deactivate_old_articles
          (process_articles env.classifierAvailable env.items ⟨db₀, false⟩
            now ⟨0, 0, 0⟩).1.db now := by
      rw [hdb]
      simp [hA, hd, hs, hc]
    refine ⟨hok, ?_⟩
    rw [hok]
    intro r hr hstale
    obtain ⟨x, hx, rfl⟩ := List.mem_map.mp hr
    exact stale_update_stale_inactive now x hstale
  · intro h
    rw [hdb]
    rcases h with h | h | h | h <;> simp [h]

theorem run_pipeline_deactivates_witness :
    (run_news_pipeline ⟨false, false, true, [okItem], false, false, false⟩
        ⟨[wStaleRec], 1⟩ (9 * 86400)).db =
      deactivate_old_articles
        (process_articles true [okItem] ⟨⟨[wStaleRec], 1⟩, false⟩ (9 * 86400)
          ⟨0, 0, 0⟩).1.db (9 * 86400) ∧
    (run_news_pipeline ⟨false, false, true, [cxItem], false, false, false⟩
        ⟨[wStaleRec], 1⟩ (9 * 86400)).db = ⟨[wStaleRec], 1⟩ :=
  ⟨((run_pipeline_deactivates
      ⟨false, false, true, [okItem], false, false, false⟩ ⟨[wStaleRec], 1⟩
      (9 * 86400) rfl rfl (by decide)).1 rfl rfl rfl rfl).1,
    (run_pipeline_deactivates
      ⟨false, false, true, [cxItem], false, false, false⟩ ⟨[wStaleRec], 1⟩
      (9 * 86400) rfl rfl (by decide)).2 (Or.inl rfl)⟩

/-- C10: the pipeline entry point never propagates an error to its caller:
whenever the body of the outer `try` fails (in particular whenever database
setup fails), `run_news_pipeline` catches the error, adds it to the error
counter, leaves the store at its pre-run contents and returns normally;
every run yields a normal `RunResult`. -/
theorem run_news_pipeline_no_propagate (env : PipelineEnv) (db₀ : NewsDB)
    (now : Int) :
    (∀ s, pipeline_body env db₀ now = Except.error s →
      run_news_pipeline env db₀ now =
        ⟨⟨s.new_articles, s.updated_articles, s.errors + 1⟩, db₀⟩) ∧
    (env.setupFails = true →
      run_news_pipeline env db₀ now = ⟨⟨0, 0, 1⟩, db₀⟩) ∧
    ∃ r : RunResult, run_news_pipeline env db₀ now = r := by
  refine ⟨?_, ?_, ⟨run_news_pipeline env db₀ now, rfl⟩⟩
  · intro s hs
    simp [run_news_pipeline, hs]
  · intro h
    simp [run_news_pipeline, pipeline_body, h]

theorem run_news_pipeline_no_propagate_witness :
    run_news_pipeline ⟨true, false, true, [], false, false, false⟩ ⟨[], 0⟩ 0 =
      ⟨⟨0, 0, 1⟩, ⟨[], 0⟩⟩ :=
  (run_news_pipeline_no_propagate ⟨true, false, true, [], false, false,
    false⟩ ⟨[], 0⟩ 0).2.1 rfl

/-! ## Date normalizer theorems -/

/-- A pattern whose every match fails the date parse contributes nothing:
the loop continues with the remaining patterns. -/
theorem tryPatterns_cons_none (p : List Char → Option (List Char))
    (ps : List (List Char → Option (List Char))) (l : List Char)
    (h : ∀ s, searchPattern p l = some s → date_parser_parse s = none) :
    tryPatterns (p :: ps) l = tryPatterns ps l := by
  cases hs : searchPattern p l with
  | none => simp [tryPatterns, hs]
  | some s => simp [tryPatterns, hs, h s hs]

/-- C8: `extract_date_from_text` parses `"2024-03-15"` to March 15 2024 and
returns `none` on `"no date here"`; patterns are tried in source order and a
matched substring that fails the date parse (the unparseable `"9999-99-99"`)
falls through to the next pattern instead of aborting; and for every input
in which each pattern either has no match or only a match whose date parse
fails, the result is `none`. -/
theorem extract_date_spec :
    extract_date_from_text "2024-03-15" = some ⟨2024, 3, 15⟩ ∧
    extract_date_from_text "no date here" = none ∧
    extract_date_from_text "9999-99-99 03/15/2024" = some ⟨2024, 3, 15⟩ ∧
    ∀ t : String,
      (∀ p ∈ date_patterns, ∀ s, searchPattern p t.data = some s →
        date_parser_parse s = none) →
      extract_date_from_text t = none := by
  refine ⟨by decide, by decide, by decide, ?_⟩
  intro t h
  have h1 := h matchIsoAt (by simp [date_patterns])
  have h2 := h matchMdyAt (by simp [date_patterns])
  have h3 := h matchDmyAt (by simp [date_patterns])
  have h4 := h matchNepaliAt (by simp [date_patterns])
  unfold extract_date_from_text
  split
  · rfl
  · have e : date_patterns =
        [matchIsoAt, matchMdyAt, matchDmyAt, matchNepaliAt] := rfl
    rw [e, tryPatterns_cons_none _ _ _ h1, tryPatterns_cons_none _ _ _ h2,
      tryPatterns_cons_none _ _ _ h3, tryPatterns_cons_none _ _ _ h4]
    rfl

theorem extract_date_spec_witness :
    extract_date_from_text "xyz" = none := by
  apply extract_date_spec.2.2.2
  intro p hp s hs
  have n1 : searchPattern matchIsoAt "xyz".data = none := by decide
  have n2 : searchPattern matchMdyAt "xyz".data = none := by decide
  have n3 : searchPattern matchDmyAt "xyz".data = none := by decide
  have n4 : searchPattern matchNepaliAt "xyz".data = none := by decide
  have e : date_patterns =
      [matchIsoAt, matchMdyAt, matchDmyAt, matchNepaliAt] := rfl
  rw [e] at hp
  simp only [List.mem_cons, List.not_mem_nil, or_false] at hp
  rcases hp with rfl | rfl | rfl | rfl
  · rw [n1] at hs
    cases hs
  · rw [n2] at hs
    cases hs
  · rw [n3] at hs
    cases hs
  · rw [n4] at hs
    cases hs
